import Mathlib

/-!
Shallow embedding of the EGODS remote fill station Arduino sketches
(`EGODS_remote_fill_station_prelim` and `EGODS_remote_fill_station_inter`).

Bytes are modelled as `Nat` (values 0-255 in practice; masking is explicit
where the C code masks).  Global mutable state is passed explicitly:
the latched code `rcv_opcode` / `received_message` is an input and output of
`LED_actuation`, the command box receive strings form `CmdState`, and the
transmit scheduler state forms `SchedState`.
-/

namespace EGODS

/-- Embeds `LED_actuation` (inter `EGODS_actuator_box_inter.ino` lines 186-196,
prelim `EGODS_actuator_box.ino` lines 96-108; both variants have the same
logic).  Input `rcv_opcode` is the latched code before the call; the result is
the latched code after the call together with the three bits written by
`digitalWrite` to the fill, dump and check outputs. -/
def LED_actuation (rcv_opcode code : Nat) : Nat × (Nat × Nat × Nat) :=
  let rcv := if code = 1 ∨ code = 3 ∨ code = 6 ∨ code = 7 then rcv_opcode else code
  (rcv, ((rcv >>> 2) &&& 1, (rcv >>> 1) &&& 1, rcv &&& 1))

/-- Embeds `state_determination` (prelim `EGODS_command_box.ino` lines 117-132
and prelim `EGODS_actuator_box.ino` lines 110-125, identical). -/
def state_determination (state_encode : Nat) : String :=
  if state_encode = 0 then "off"
  else if state_encode = 1 then "don\x27t care"
  else if state_encode = 2 then "dumping"
  else if state_encode = 4 then "fill-ready"
  else if state_encode = 5 then "filling"
  else if state_encode = 3 ∨ state_encode = 6 ∨ state_encode = 7 then "forbidden"
  else "unknown"

/-- Embeds `opcode_generator` (inter `EGODS_command_box_inter.ino` lines
124-131): the switch bits are shifted and summed. -/
def opcode_generator (fill_sw_state dump_sw_state check_sw_state : Nat) : Nat :=
  (fill_sw_state <<< 2) + (dump_sw_state <<< 1) + check_sw_state

/-- Embeds the decode step inside `LED_actuation` (inter
`EGODS_actuator_box_inter.ino` lines 190-192): bit extraction by shift and
mask. -/
def decode_opcode (code : Nat) : Nat × Nat × Nat :=
  ((code >>> 2) &&& 1, (code >>> 1) &&& 1, code &&& 1)

/-- Iterated latch: fold `LED_actuation` over a list of received bytes,
starting from the initial value `rcv_opcode = 0` of the global. -/
def latchRun (codes : List Nat) : Nat :=
  codes.foldl (fun L code => (LED_actuation L code).1) 0

/-- One latch step never stores a code from {1,3,6,7}. -/
theorem latch_step_safe (L code : Nat)
    (hL : ¬(L = 1 ∨ L = 3 ∨ L = 6 ∨ L = 7)) :
    ¬((LED_actuation L code).1 = 1 ∨ (LED_actuation L code).1 = 3 ∨
      (LED_actuation L code).1 = 6 ∨ (LED_actuation L code).1 = 7) := by
  unfold LED_actuation
  by_cases h : code = 1 ∨ code = 3 ∨ code = 6 ∨ code = 7
  · simp [h]; tauto
  · simp [h]

/-- Folding the latch from a safe code stays safe. -/
theorem latch_fold_safe (codes : List Nat) :
    ∀ L : Nat, ¬(L = 1 ∨ L = 3 ∨ L = 6 ∨ L = 7) →
      ¬(codes.foldl (fun L code => (LED_actuation L code).1) L = 1 ∨
        codes.foldl (fun L code => (LED_actuation L code).1) L = 3 ∨
        codes.foldl (fun L code => (LED_actuation L code).1) L = 6 ∨
        codes.foldl (fun L code => (LED_actuation L code).1) L = 7) := by
  induction codes with
  | nil => intro L hL; simpa using hL
  | cons c rest ih =>
      intro L hL
      simpa [List.foldl] using ih ((LED_actuation L c).1) (latch_step_safe L c hL)

/-- C1: Forbidden-State Latch contract.  For every received byte `code` and
every prior latched code `L`: if `code` is in {1,3,6,7} the call keeps the
latched code at `L` and the outputs are decoded from `L`; otherwise the
latched code becomes `code` and the outputs are decoded from `code`. -/
theorem C1_latch_contract (L code : Nat) :
    ((code = 1 ∨ code = 3 ∨ code = 6 ∨ code = 7) →
      (LED_actuation L code).1 = L ∧
      (LED_actuation L code).2 = ((L >>> 2) &&& 1, (L >>> 1) &&& 1, L &&& 1)) ∧
    (¬(code = 1 ∨ code = 3 ∨ code = 6 ∨ code = 7) →
      (LED_actuation L code).1 = code ∧
      (LED_actuation L code).2 =
        ((code >>> 2) &&& 1, (code >>> 1) &&& 1, code &&& 1)) := by
  unfold LED_actuation
  constructor
  · intro h; simp [h]
  · intro h; simp [h]

/-- C1 witness: with prior latch 5, the forbidden byte 7 is rejected (latch
stays 5) and the safe byte 4 is accepted (latch becomes 4). -/
theorem C1_latch_contract_witness :
    (7 = 1 ∨ 7 = 3 ∨ 7 = 6 ∨ 7 = 7) ∧ (LED_actuation 5 7).1 = 5 ∧
    ¬(4 = 1 ∨ 4 = 3 ∨ 4 = 6 ∨ 4 = 7) ∧ (LED_actuation 5 4).1 = 4 :=
  ⟨by decide, ((C1_latch_contract 5 7).1 (by decide)).1,
   by decide, ((C1_latch_contract 5 4).2 (by decide)).1⟩

/-- C2: latched-code safety invariant.  Starting from the initial value 0,
after any finite sequence of `LED_actuation` calls with arbitrary received
bytes, the retained latched code is never one of {1,3,6,7}.  (Every prefix of
a sequence is itself a sequence, so this covers every intermediate point.) -/
theorem C2_latch_invariant (codes : List Nat) :
    ((latchRun codes == 1) || (latchRun codes == 3) ||
     (latchRun codes == 6) || (latchRun codes == 7)) = false := by
  have h := latch_fold_safe codes 0 (by decide)
  unfold latchRun
  push_neg at h
  simp only [Bool.or_eq_false_iff, beq_eq_false_iff_ne]
  exact ⟨⟨⟨h.1, h.2.1⟩, h.2.2.1⟩, h.2.2.2⟩

/-- C3: evaluation at the failing input 200.  The out-of-range byte 200 is not
caught by the forbidden-state check, so `LED_actuation` stores it as the
latched code and drives the outputs decoded from it, even though the
classification function calls it `unknown`. -/
theorem C3_out_of_range_accepted :
    (LED_actuation 0 200).1 = 200 ∧ state_determination 200 = "unknown" := by
  constructor
  · decide
  · rfl

/-- C7: classification.  `state_determination` returns exactly the table label
for each code 0-7 and `unknown` for every byte outside 0-7. -/
theorem C7_classification :
    (state_determination 0 = "off" ∧ state_determination 1 = "don\x27t care" ∧
     state_determination 2 = "dumping" ∧ state_determination 3 = "forbidden" ∧
     state_determination 4 = "fill-ready" ∧ state_determination 5 = "filling" ∧
     state_determination 6 = "forbidden" ∧ state_determination 7 = "forbidden") ∧
    ∀ code : Nat, 8 ≤ code → state_determination code = "unknown" := by
  constructor
  · refine ⟨rfl, rfl, rfl, rfl, rfl, rfl, rfl, rfl⟩
  · intro code h
    unfold state_determination
    rw [if_neg (by omega), if_neg (by omega), if_neg (by omega),
        if_neg (by omega), if_neg (by omega), if_neg (by omega)]

/-- C7 witness: the out-of-range byte 200 classifies as unknown. -/
theorem C7_classification_witness :
    8 ≤ 200 ∧ state_determination 200 = "unknown" :=
  ⟨by decide, C7_classification.2 200 (by decide)⟩

/-- C8: opcode codec.  For binary inputs the encoder computes
`fill <<< 2 ||| dump <<< 1 ||| check` (the sum of the shifted bits equals the
bitwise or), and for every code 0-7 the decode-encode-decode round trip is
stable. -/
theorem C8_codec_roundtrip :
    (∀ f d c : Nat, f ≤ 1 → d ≤ 1 → c ≤ 1 →
      opcode_generator f d c = (f <<< 2) ||| (d <<< 1) ||| c) ∧
    ∀ code : Nat, code < 8 →
      decode_opcode (opcode_generator (decode_opcode code).1
        (decode_opcode code).2.1 (decode_opcode code).2.2) =
      decode_opcode code := by
  constructor
  · intro f d c hf hd hc
    interval_cases f <;> interval_cases d <;> interval_cases c <;> decide
  · decide

/-- C8 witness: at the binary inputs 1,0,1 and at code 5. -/
theorem C8_codec_roundtrip_witness :
    opcode_generator 1 0 1 = (1 <<< 2) ||| (0 <<< 1) ||| 1 ∧
    decode_opcode (opcode_generator (decode_opcode 5).1
      (decode_opcode 5).2.1 (decode_opcode 5).2.2) = decode_opcode 5 :=
  ⟨C8_codec_roundtrip.1 1 0 1 (by decide) (by decide) (by decide),
   C8_codec_roundtrip.2 5 (by decide)⟩

/-- Embeds the `while (LoRa.available())` separator loop of the command box
`onReceive` (inter `EGODS_command_box_inter.ino` lines 157-180).  `sep` is the
`separator` counter and the three accumulators are the cleared
`fill_pres_str`, `dump_pres_str`, `check_pres_str` strings, built one
character at a time. -/
def decodeLoop : List Char → Nat → List Char → List Char → List Char →
    String × String × String
  | [], _, f, d, c => (f.asString, d.asString, c.asString)
  | ch :: rest, sep, f, d, c =>
    if sep = 0 then
      if ch = '|' then decodeLoop rest 1 f d c
      else decodeLoop rest 0 (f ++ [ch]) d c
    else if sep = 1 then
      if ch = '|' then decodeLoop rest 2 f d c
      else decodeLoop rest 1 f (d ++ [ch]) c
    else if sep = 2 then decodeLoop rest sep f d (c ++ [ch])
    else decodeLoop rest sep f d c

/-- The payload decoder: run the separator loop on the payload characters with
the counter at 0 and the three strings cleared, exactly as the handler does
after the address check passes. -/
def decodeSensors (payload : List Char) : String × String × String :=
  decodeLoop payload 0 [] [] []

/-- Embeds the packet text built by `sendMessage` (inter
`EGODS_actuator_box_inter.ino` lines 149-167) after the two address bytes:
the three readings rendered by the Arduino `String(float)` constructor and
joined by single `|` separators, with no trailing separator. -/
def arduinoFloatString (v : ℚ) : String :=
  let h : Nat := (⌊v * 100 + 1 / 2⌋).toNat
  toString (h / 100) ++ "." ++ (if h % 100 < 10 then "0" else "") ++
    toString (h % 100)

/-- The sensor payload: decimal text of the three readings joined by `|`
(the `LoRa.print` calls of `sendMessage`, inter `EGODS_actuator_box_inter.ino`
lines 156-164). -/
def encodeSensors (data1 data2 data3 : ℚ) : String :=
  arduinoFloatString data1 ++ "|" ++ arduinoFloatString data2 ++ "|" ++
    arduinoFloatString data3

/-- Embeds the address filter shared by both `onReceive` handlers (inter
`EGODS_actuator_box_inter.ino` lines 170-183, inter `EGODS_actuator_box.ino`
lines 150-160): on an empty packet the handler body is skipped; otherwise the
first byte is read as the recipient and the second as the sender (a read past
the end of the packet yields -1, which the byte globals store as 255), the
packet is rejected unless they match the unit's own and peer addresses, and
on acceptance the rest of the packet is the payload. -/
def parse (bytes : List Nat) (local_address destination_address : Nat) :
    Option (List Nat) :=
  if bytes = [] then none
  else
    let recipient_address := bytes.headD 255
    let sender_address := (bytes[1]?).getD 255
    if recipient_address ≠ local_address ∨ sender_address ≠ destination_address
    then none
    else some (bytes.drop 2)

/-- The command box receive-state globals (inter `EGODS_command_box_inter.ino`
lines 51-53). -/
structure CmdState where
  fill_pres_str : String
  dump_pres_str : String
  check_pres_str : String
deriving DecidableEq

/-- Embeds the command box `onReceive` handler (inter
`EGODS_command_box_inter.ino` lines 147-182; its `local_address` is 0xCC and
its `destination_address` is 0xBB). -/
def cmd_onReceive (st : CmdState) (packet : List Nat) : CmdState :=
  if packet = [] then st
  else
    let recipient_address := packet.headD 255
    let sender_address := (packet[1]?).getD 255
    if recipient_address ≠ 0xCC ∨ sender_address ≠ 0xBB then st
    else
      let r := decodeSensors ((packet.drop 2).map Char.ofNat)
      ⟨r.1, r.2.1, r.2.2⟩

/-- Embeds the actuator box `onReceive` handler (inter
`EGODS_actuator_box_inter.ino` lines 170-183; its `local_address` is 0xBB and
its `destination_address` is 0xCC).  The retained state is the `opcode`
global. -/
def act_onReceive (opcode : Nat) (packet : List Nat) : Nat :=
  if packet = [] then opcode
  else
    let recipient_address := packet.headD 255
    let sender_address := (packet[1]?).getD 255
    if recipient_address ≠ 0xBB ∨ sender_address ≠ 0xCC then opcode
    else (packet[2]?).getD 255

/-- C4: address filter.  With local address 0xBB and peer address 0xCC,
`parse` accepts, with payload the bytes from offset 2 onward, exactly when
the packet has at least 2 bytes, byte 0 is 0xBB and byte 1 is 0xCC; in every
other case (including packets shorter than 2 bytes) it rejects. -/
theorem C4_address_filter (bytes : List Nat) :
    (2 ≤ bytes.length ∧ bytes[0]? = some 0xBB ∧ bytes[1]? = some 0xCC →
      parse bytes 0xBB 0xCC = some (bytes.drop 2)) ∧
    (¬(2 ≤ bytes.length ∧ bytes[0]? = some 0xBB ∧ bytes[1]? = some 0xCC) →
      parse bytes 0xBB 0xCC = none) := by
  match bytes with
  | [] => simp [parse]
  | [a] =>
      refine ⟨fun h => absurd h.1 (by simp), fun _ => ?_⟩
      simp [parse]
  | a :: b :: rest =>
      constructor
      · rintro ⟨-, ha, hb⟩
        simp at ha hb
        simp [parse, ha, hb]
      · intro h
        simp at h
        by_cases ha : a = 0xBB
        · simp [parse, ha, h ha]
        · simp [parse, ha]

/-- C4 witness: a well-addressed 3-byte packet is accepted with its 1-byte
payload; a mis-addressed one is rejected. -/
theorem C4_address_filter_witness :
    parse [0xBB, 0xCC, 5] 0xBB 0xCC = some [5] ∧
    parse [0xAA, 0xCC, 5] 0xBB 0xCC = none :=
  ⟨(C4_address_filter [0xBB, 0xCC, 5]).1 (by decide),
   (C4_address_filter [0xAA, 0xCC, 5]).2 (by decide)⟩

/-- C10: rejection is side-effect free on receive state.  If the address pair
of an incoming packet fails the filter, the command box handler leaves all
three sensor field strings unchanged and the actuator box handler leaves the
last received opcode unchanged. -/
theorem C10_reject_frame (st : CmdState) (opcode r s : Nat)
    (rest : List Nat) :
    (r ≠ 0xCC ∨ s ≠ 0xBB → cmd_onReceive st (r :: s :: rest) = st) ∧
    (r ≠ 0xBB ∨ s ≠ 0xCC → act_onReceive opcode (r :: s :: rest) = opcode) := by
  constructor
  · intro h
    unfold cmd_onReceive
    rw [if_neg (by simp), if_pos (by simpa using h)]
  · intro h
    unfold act_onReceive
    rw [if_neg (by simp), if_pos (by simpa using h)]

/-- C10 witness: a packet addressed to 0xAA leaves both units' receive state
untouched. -/
theorem C10_reject_frame_witness :
    cmd_onReceive ⟨"1", "2", "3"⟩ [0xAA, 0xBB, 53] = ⟨"1", "2", "3"⟩ ∧
    act_onReceive 5 [0xAA, 0xCC, 7] = 5 :=
  ⟨(C10_reject_frame ⟨"1", "2", "3"⟩ 0 0xAA 0xBB [53]).1 (by decide),
   (C10_reject_frame ⟨"1", "2", "3"⟩ 5 0xAA 0xCC [7]).2 (by decide)⟩

/-- The separator loop on the empty payload returns the accumulators. -/
theorem decodeLoop_nil (sep : Nat) (f d c : List Char) :
    decodeLoop [] sep f d c = (f.asString, d.asString, c.asString) := by
  simp [decodeLoop]

/-- At counter 0 a non-separator character accumulates into the first field. -/
theorem decodeLoop_cons_zero (ch : Char) (rest f d c : List Char)
    (h : ¬ ch = '|') :
    decodeLoop (ch :: rest) 0 f d c = decodeLoop rest 0 (f ++ [ch]) d c := by
  simp [decodeLoop, h]

/-- Seeing a separator at counter 0 moves to counter 1. -/
theorem decodeLoop_bar_zero (rest f d c : List Char) :
    decodeLoop ( '|' :: rest) 0 f d c = decodeLoop rest 1 f d c := by
  simp [decodeLoop]

/-- At counter 1 a non-separator character accumulates into the second
field. -/
theorem decodeLoop_cons_one (ch : Char) (rest f d c : List Char)
    (h : ¬ ch = '|') :
    decodeLoop (ch :: rest) 1 f d c = decodeLoop rest 1 f (d ++ [ch]) c := by
  simp [decodeLoop, h]

/-- Seeing a separator at counter 1 moves to counter 2. -/
theorem decodeLoop_bar_one (rest f d c : List Char) :
    decodeLoop ( '|' :: rest) 1 f d c = decodeLoop rest 2 f d c := by
  simp [decodeLoop]

/-- At counter 2 every character, separator or not, accumulates into the
third field. -/
theorem decodeLoop_cons_two (ch : Char) (rest f d c : List Char) :
    decodeLoop (ch :: rest) 2 f d c = decodeLoop rest 2 f d (c ++ [ch]) := by
  simp [decodeLoop]

/-- Once the separator counter reaches 2, the loop appends every remaining
character to the third accumulator verbatim. -/
theorem decodeLoop_sep_two (rest : List Char) :
    ∀ f d c : List Char,
      decodeLoop rest 2 f d c = (f.asString, d.asString, (c ++ rest).asString) := by
  induction rest with
  | nil => intro f d c; simp [decodeLoop_nil]
  | cons ch t ih =>
      intro f d c
      rw [decodeLoop_cons_two, ih f d (c ++ [ch]), List.append_assoc]
      simp

/-- While the separator counter is 0, a separator-free block accumulates into
the first field. -/
theorem decodeLoop_sep_zero (a : List Char) :
    ∀ rest f d c : List Char, ( '|' ) ∉ a →
      decodeLoop (a ++ rest) 0 f d c = decodeLoop rest 0 (f ++ a) d c := by
  induction a with
  | nil => intro rest f d c _; simp
  | cons ch t ih =>
      intro rest f d c h
      simp at h
      have hch : ¬ ch = '|' := fun hc => h.1 hc.symm
      rw [List.cons_append, decodeLoop_cons_zero ch (t ++ rest) f d c hch,
          ih rest (f ++ [ch]) d c h.2, List.append_assoc]
      simp

/-- While the separator counter is 1, a separator-free block accumulates into
the second field. -/
theorem decodeLoop_sep_one (a : List Char) :
    ∀ rest f d c : List Char, ( '|' ) ∉ a →
      decodeLoop (a ++ rest) 1 f d c = decodeLoop rest 1 f (d ++ a) c := by
  induction a with
  | nil => intro rest f d c _; simp
  | cons ch t ih =>
      intro rest f d c h
      simp at h
      have hch : ¬ ch = '|' := fun hc => h.1 hc.symm
      rw [List.cons_append, decodeLoop_cons_one ch (t ++ rest) f d c hch,
          ih rest f (d ++ [ch]) c h.2, List.append_assoc]
      simp

/-- C6: sensor payload parsing asymmetry.  The first field is cut strictly at
the first separator, the second strictly at the second separator, the third
absorbs all remaining characters verbatim (including further separators), and
a field whose separator never arrives is empty.  In particular the payloads
`5|` and `1|2|3|4` decode as stated. -/
theorem C6_decode_asymmetry :
    (∀ a b c : List Char, ( '|' ) ∉ a → ( '|' ) ∉ b →
        decodeSensors (a ++ ( '|' :: (b ++ ( '|' :: c)))) =
          (a.asString, b.asString, c.asString)) ∧
    (∀ a b : List Char, ( '|' ) ∉ a → ( '|' ) ∉ b →
        decodeSensors (a ++ ( '|' :: b)) = (a.asString, b.asString, "")) ∧
    (∀ a : List Char, ( '|' ) ∉ a → decodeSensors a = (a.asString, "", "")) ∧
    decodeSensors (("5|").toList) = ("5", "", "") ∧
    decodeSensors (("1|2|3|4").toList) = ("1", "2", "3|4") := by
  refine ⟨?_, ?_, ?_, by decide, by decide⟩
  · intro a b c ha hb
    unfold decodeSensors
    rw [decodeLoop_sep_zero a ( '|' :: (b ++ ( '|' :: c))) [] [] [] ha,
        decodeLoop_bar_zero,
        decodeLoop_sep_one b ( '|' :: c) ([] ++ a) [] [] hb,
        decodeLoop_bar_one, decodeLoop_sep_two]
    simp
  · intro a b ha hb
    unfold decodeSensors
    rw [decodeLoop_sep_zero a ( '|' :: b) [] [] [] ha, decodeLoop_bar_zero]
    have h2 := decodeLoop_sep_one b [] ([] ++ a) [] [] hb
    simp only [List.append_nil] at h2
    rw [h2, decodeLoop_nil]
    simp
    rfl
  · intro a ha
    unfold decodeSensors
    have h0 := decodeLoop_sep_zero a [] [] [] [] ha
    simp only [List.append_nil] at h0
    rw [h0, decodeLoop_nil]
    simp
    rfl

/-- C6 witness: at the separator-free blocks `12`, `34` and tail `5|6`. -/
theorem C6_decode_asymmetry_witness :
    ( '|' ) ∉ (("12").toList) ∧ ( '|' ) ∉ (("34").toList) ∧
    decodeSensors (("12").toList ++ ( '|' :: ((("34").toList) ++ ( '|' :: (("5|6").toList))))) =
      ("12", "34", "5|6") ∧
    decodeSensors (("9").toList) = ("9", "", "") :=
  ⟨by decide, by decide,
   C6_decode_asymmetry.1 (("12").toList) (("34").toList) (("5|6").toList)
     (by decide) (by decide),
   C6_decode_asymmetry.2.2.1 (("9").toList) (by decide)⟩

/-- C5 counterexample: the Arduino `String(float)` constructor renders with
two decimal places, so encoding the readings 12.0, 34.5, 6.0 and decoding the
payload does not give the fields `12.0`, `34.5`, `6.0`. -/
theorem C5_roundtrip_counterexample :
    decodeSensors ((encodeSensors 12 (69 / 2) 6).toList) ≠
      ("12.0", "34.5", "6.0") := by
  have h1 : (⌊(12 : ℚ) * 100 + 1 / 2⌋ : ℤ) = 1200 := by norm_num
  have h2 : (⌊(69 / 2 : ℚ) * 100 + 1 / 2⌋ : ℤ) = 3450 := by norm_num
  have h3 : (⌊(6 : ℚ) * 100 + 1 / 2⌋ : ℤ) = 600 := by norm_num
  simp only [encodeSensors, arduinoFloatString, h1, h2, h3]
  decide

/-- C5 (amended): encoding the readings 12.0, 34.5, 6.0 and decoding the
resulting payload yields exactly the two-decimal renderings
(`12.00`, `34.50`, `6.00`). -/
theorem C5_roundtrip :
    decodeSensors ((encodeSensors 12 (69 / 2) 6).toList) =
      ("12.00", "34.50", "6.00") := by
  have h1 : (⌊(12 : ℚ) * 100 + 1 / 2⌋ : ℤ) = 1200 := by norm_num
  have h2 : (⌊(69 / 2 : ℚ) * 100 + 1 / 2⌋ : ℤ) = 3450 := by norm_num
  have h3 : (⌊(6 : ℚ) * 100 + 1 / 2⌋ : ℤ) = 600 := by norm_num
  simp only [encodeSensors, arduinoFloatString, h1, h2, h3]
  decide

/-- The transmit scheduler globals (inter files: `last_send_time` and
`interval`). -/
structure SchedState where
  last_send_time : Nat
  interval : Nat
deriving DecidableEq

/-- Unsigned 32-bit wraparound subtraction, the semantics of
`millis() - last_send_time` on the 32-bit `unsigned long`. -/
def sub32 (a b : Nat) : Nat := (a + 2 ^ 32 - b % 2 ^ 32) % 2 ^ 32

/-- Embeds the transmit-scheduler part of `loop` (inter
`EGODS_actuator_box_inter.ino` lines 116-130 and inter
`EGODS_command_box_inter.ino` lines 100-110): the body fires when
`millis() - last_send_time > interval`, and then sets
`last_send_time = millis()` and `interval = random(1000) + 500`.  The two
`millis()` calls of one firing are modelled as the single instant `now`, and
the `random(1000)` draw as `r % 1000` for an arbitrary seed value `r` (the
library guarantees a result in `[0, 1000)`). -/
def schedTick (st : SchedState) (now r : Nat) : Bool × SchedState :=
  if st.interval < sub32 now st.last_send_time then
    (true, ⟨now, r % 1000 + 500⟩)
  else (false, st)

/-- C9: transmit scheduler.  A tick fires exactly when
`now - lastSendTime > currentInterval` (in wraparound arithmetic), and on
every firing `lastSendTime` becomes `now` and `currentInterval` is re-rolled
into `[500, 1500)`; hence after any firing tick, from any prior state,
`500 <= currentInterval < 1500`. -/
theorem C9_scheduler (st : SchedState) (now r : Nat) :
    ((schedTick st now r).1 = true ↔ st.interval < sub32 now st.last_send_time) ∧
    ((schedTick st now r).1 = true →
      (schedTick st now r).2.last_send_time = now ∧
      500 ≤ (schedTick st now r).2.interval ∧
      (schedTick st now r).2.interval < 1500) := by
  unfold schedTick
  by_cases h : st.interval < sub32 now st.last_send_time
  · simp [h]
    omega
  · simp [h]

/-- C9 witness: from state (lastSendTime 0, interval 1000) at time 2000 with
seed 7, the tick fires, the send time becomes 2000 and the new interval lies
in `[500, 1500)`. -/
theorem C9_scheduler_witness :
    (schedTick ⟨0, 1000⟩ 2000 7).1 = true ∧
    (schedTick ⟨0, 1000⟩ 2000 7).2.last_send_time = 2000 ∧
    500 ≤ (schedTick ⟨0, 1000⟩ 2000 7).2.interval ∧
    (schedTick ⟨0, 1000⟩ 2000 7).2.interval < 1500 :=
  ⟨(C9_scheduler ⟨0, 1000⟩ 2000 7).1.mpr (by decide),
   (C9_scheduler ⟨0, 1000⟩ 2000 7).2
     ((C9_scheduler ⟨0, 1000⟩ 2000 7).1.mpr (by decide))⟩

end EGODS
